import Mathlib

/-
Shallow embedding of the measurement pipeline of the child growth
measurement system (source files child.py and 2.py of the repository).
Numbers are modelled exactly: rational numbers stand for the float
inputs and thresholds, and real numbers for computed measurements that
involve square roots and pi.  The image primitives (edge detection,
contour extraction, minimum-area rectangles) are external collaborators;
their outputs (contour area and fitted-rectangle dimensions, and the
per-side scanline width lists for the wrist crop) enter the model as
explicit inputs, and everything the repository computes from them is
embedded faithfully.
-/

/-- Normalized body landmark: coordinates as fractions of the image and a
visibility confidence, as produced by the pose subsystem. -/
structure Landmark where
  x : ℚ
  y : ℚ
  visibility : ℚ

/-- The pose landmark names used by the pipeline (mp.solutions.pose.PoseLandmark). -/
inductive PoseLandmarkName where
  | LEFT_EYE
  | RIGHT_EYE
  | NOSE
  | LEFT_EAR
  | RIGHT_EAR
  | LEFT_SHOULDER
  | RIGHT_SHOULDER
  | LEFT_ELBOW
  | RIGHT_ELBOW
  | LEFT_WRIST
  | RIGHT_WRIST
  | LEFT_ANKLE
  | RIGHT_ANKLE
  | LEFT_HEEL
  | RIGHT_HEEL
  | LEFT_FOOT_INDEX
  | RIGHT_FOOT_INDEX

/-- A landmark set maps each landmark name to its detected landmark. -/
abbrev LandmarkSet := PoseLandmarkName → Landmark

/-- The two body sides iterated over by the wrist code. -/
inductive Side where
  | left
  | right

/-- Elbow landmark name of a side. -/
def elbowName : Side → PoseLandmarkName
  | .left => .LEFT_ELBOW
  | .right => .RIGHT_ELBOW

/-- Wrist landmark name of a side. -/
def wristName : Side → PoseLandmarkName
  | .left => .LEFT_WRIST
  | .right => .RIGHT_WRIST

/-- Shoulder landmark name of a side. -/
def shoulderName : Side → PoseLandmarkName
  | .left => .LEFT_SHOULDER
  | .right => .RIGHT_SHOULDER

/-- An external contour as the scale detector sees it: its area
(cv2.contourArea) and the two side lengths of its minimum-area bounding
rectangle (cv2.minAreaRect).  These are outputs of the image-primitives
collaborator and enter the model as data. -/
structure Contour where
  area : ℚ
  rectW : ℚ
  rectH : ℚ
deriving DecidableEq

/-- A ruler candidate kept by the scale detector: contour area, the long
side of its bounding rectangle, and its aspect ratio. -/
structure RulerCandidate where
  area : ℚ
  longSide : ℚ
  aspect : ℚ
deriving DecidableEq

/-- Candidate filter of detect_scale_pixel_length in child.py: keep a
contour when its area is at least 0.0005 of the image area, its short
side is positive, its aspect ratio exceeds 3, and its long side is
between 0.05 and 0.9 of the larger image dimension. -/
def rulerCandidates_child (w h : ℚ) (contours : List Contour) : List RulerCandidate :=
  contours.filterMap fun cnt =>
    if cnt.area < 0.0005 * w * h then none
    else
      let long_side := max cnt.rectW cnt.rectH
      let short_side := min cnt.rectW cnt.rectH
      if short_side ≤ 0 then none
      else
        let aspect := long_side / (short_side + 1e-8)
        if aspect > 3.0 ∧ long_side > 0.05 * max w h ∧ long_side < 0.9 * max w h then
          some ⟨cnt.area, long_side, aspect⟩
        else none

/-- Candidate filter of detect_scale_pixel_length in 2.py: stricter
aspect threshold 8 and long-side band between 0.08 and 0.4 of the larger
image dimension. -/
def rulerCandidates_v2 (w h : ℚ) (contours : List Contour) : List RulerCandidate :=
  contours.filterMap fun cnt =>
    if cnt.area < 0.0005 * w * h then none
    else
      let long_side := max cnt.rectW cnt.rectH
      let short_side := min cnt.rectW cnt.rectH
      if short_side ≤ 0 then none
      else
        let aspect := long_side / (short_side + 1e-8)
        if aspect > 8.0 ∧ long_side > 0.08 * max w h ∧ long_side < 0.4 * max w h then
          some ⟨cnt.area, long_side, aspect⟩
        else none

/-- Models a stable descending sort by a rational key followed by taking
the first element: the result is the first element of the list whose key
is maximal, which is exactly what the Python stable sort with
reverse set followed by indexing at 0 returns. -/
def pickFirstMaxQ {α : Type} (k : α → ℚ) (x : α) : List α → α
  | [] => x
  | y :: ys => if k x < k y then pickFirstMaxQ k y ys else pickFirstMaxQ k x ys

/-- Strict lexicographic order on rational pairs, as induced by the
Python tuple comparison used for the sort key in 2.py. -/
def lexLt (p q : ℚ × ℚ) : Prop :=
  p.1 < q.1 ∨ (p.1 = q.1 ∧ p.2 < q.2)

/-- Reflexive lexicographic order on rational pairs. -/
def lexLe (p q : ℚ × ℚ) : Prop :=
  p.1 < q.1 ∨ (p.1 = q.1 ∧ p.2 ≤ q.2)

instance (p q : ℚ × ℚ) : Decidable (lexLt p q) := by
  unfold lexLt
  infer_instance

/-- Models a stable descending sort by a rational-pair key (compared
lexicographically) followed by taking the first element. -/
def pickFirstMaxLex {α : Type} (k : α → ℚ × ℚ) (x : α) : List α → α
  | [] => x
  | y :: ys => if lexLt (k x) (k y) then pickFirstMaxLex k y ys else pickFirstMaxLex k x ys

/-- Scale detector of child.py: filter ruler candidates; when none
qualify, fall back to the long side of the largest contour by area, or
report failure when there are no contours at all; otherwise sort the
candidates by area descending and return the long side of the first. -/
def detect_scale_pixel_length_child (w h : ℚ) (contours : List Contour) : Option ℚ :=
  match rulerCandidates_child w h contours with
  | [] =>
    match contours with
    | [] => none
    | cnt :: rest =>
      let best_cnt := pickFirstMaxQ Contour.area cnt rest
      some (max best_cnt.rectW best_cnt.rectH)
  | c :: cs => some ((pickFirstMaxQ RulerCandidate.area c cs).longSide)

/-- Scale detector of 2.py: like the child.py variant but with the
stricter candidate filter, and the candidates sorted by the pair of
aspect ratio and long side, descending. -/
def detect_scale_pixel_length_v2 (w h : ℚ) (contours : List Contour) : Option ℚ :=
  match rulerCandidates_v2 w h contours with
  | [] =>
    match contours with
    | [] => none
    | cnt :: rest =>
      let best_cnt := pickFirstMaxQ Contour.area cnt rest
      some (max best_cnt.rectW best_cnt.rectH)
  | c :: cs => some ((pickFirstMaxLex (fun d => (d.aspect, d.longSide)) c cs).longSide)

/-- Head-top estimator (estimate_head_top_y, identical in both files):
topmost facial landmark y, pushed up by an offset proportional to the
face-to-shoulder span, clamped at zero, scaled to pixels.  The shoulder
landmarks are always present in a pose result, so the exceptional fixed
offset branch of the source is unreachable and is not modelled. -/
def estimate_head_top_y (lms : LandmarkSet) (image_h : ℚ) : ℚ :=
  let min_y := min (min (min (min (lms .LEFT_EYE).y (lms .RIGHT_EYE).y)
    (lms .NOSE).y) (lms .LEFT_EAR).y) (lms .RIGHT_EAR).y
  let shoulder_y := ((lms .LEFT_SHOULDER).y + (lms .RIGHT_SHOULDER).y) / 2
  let offset := max 0.04 (0.14 * |shoulder_y - min_y|)
  let top_y := max 0 (min_y - offset)
  top_y * image_h

/-- Feet estimator (estimate_feet_y, identical in both files): the
largest y over ankles, heels and foot indexes, scaled to pixels and
clamped to the image height. -/
def estimate_feet_y (lms : LandmarkSet) (image_h : ℚ) : ℚ :=
  let feet_y := max (max (max (max (max (lms .LEFT_ANKLE).y (lms .RIGHT_ANKLE).y)
    (lms .LEFT_HEEL).y) (lms .RIGHT_HEEL).y) (lms .LEFT_FOOT_INDEX).y)
    (lms .RIGHT_FOOT_INDEX).y
  min image_h (feet_y * image_h)

/-- Truncation toward zero, the semantics of the Python int conversion
applied to a float. -/
def pytrunc (q : ℚ) : ℤ :=
  if 0 ≤ q then ⌊q⌋ else ⌈q⌉

/-- landmark_point_to_pixel (identical in both files): scales the
normalized coordinates by the image dimensions and converts with the
Python int conversion, which truncates toward zero. -/
def landmark_point_to_pixel (lm : Landmark) (image_w image_h : ℚ) : ℤ × ℤ :=
  (pytrunc (lm.x * image_w), pytrunc (lm.y * image_h))

/-- math.hypot on exact reals. -/
noncomputable def hypotR (dx dy : ℝ) : ℝ :=
  Real.sqrt (dx ^ 2 + dy ^ 2)

/-- Euclidean distance between two integer pixel points. -/
noncomputable def euclidDistZ (p q : ℤ × ℤ) : ℝ :=
  hypotR ((q.1 - p.1 : ℤ) : ℝ) ((q.2 - p.2 : ℤ) : ℝ)

/-- measure_head_circumference as written in child.py: ear-to-ear pixel
distance when both ears are visible above 0.3, otherwise eye-to-eye
pixel distance scaled by 1.6; circumference is pi times the width in
centimeters times 1.08.  Total: it returns a value for every landmark
set. -/
noncomputable def measure_head_circumference_child
    (lms : LandmarkSet) (image_w image_h pixel_per_cm : ℚ) : ℝ :=
  let left_ear := lms .LEFT_EAR
  let right_ear := lms .RIGHT_EAR
  let left_eye := lms .LEFT_EYE
  let right_eye := lms .RIGHT_EYE
  let head_width_px : ℝ :=
    if left_ear.visibility > 0.3 ∧ right_ear.visibility > 0.3 then
      let lp := landmark_point_to_pixel left_ear image_w image_h
      let rp := landmark_point_to_pixel right_ear image_w image_h
      hypotR ((rp.1 - lp.1 : ℤ) : ℝ) ((rp.2 - lp.2 : ℤ) : ℝ)
    else
      let lp := landmark_point_to_pixel left_eye image_w image_h
      let rp := landmark_point_to_pixel right_eye image_w image_h
      hypotR ((rp.1 - lp.1 : ℤ) : ℝ) ((rp.2 - lp.2 : ℤ) : ℝ) * 1.6
  let head_width_cm := head_width_px / (pixel_per_cm : ℝ)
  Real.pi * head_width_cm * 1.08

/-- measure_head_circumference as written in 2.py, embedded separately
so that the two variants can be compared. -/
noncomputable def measure_head_circumference_v2
    (lms : LandmarkSet) (image_w image_h pixel_per_cm : ℚ) : ℝ :=
  let left_ear := lms .LEFT_EAR
  let right_ear := lms .RIGHT_EAR
  let left_eye := lms .LEFT_EYE
  let right_eye := lms .RIGHT_EYE
  let head_width_px : ℝ :=
    if left_ear.visibility > 0.3 ∧ right_ear.visibility > 0.3 then
      let lp := landmark_point_to_pixel left_ear image_w image_h
      let rp := landmark_point_to_pixel right_ear image_w image_h
      hypotR ((rp.1 - lp.1 : ℤ) : ℝ) ((rp.2 - lp.2 : ℤ) : ℝ)
    else
      let lp := landmark_point_to_pixel left_eye image_w image_h
      let rp := landmark_point_to_pixel right_eye image_w image_h
      hypotR ((rp.1 - lp.1 : ℤ) : ℝ) ((rp.2 - lp.2 : ℤ) : ℝ) * 1.6
  let head_width_cm := head_width_px / (pixel_per_cm : ℝ)
  Real.pi * head_width_cm * 1.08

/-- Head width as the specification words it: ear-to-ear Euclidean pixel
distance when both ear visibilities exceed 0.3, otherwise eye-to-eye
distance multiplied by 1.6. -/
noncomputable def headWidthSpec (lms : LandmarkSet) (image_w image_h : ℚ) : ℝ :=
  if (lms .LEFT_EAR).visibility > 0.3 ∧ (lms .RIGHT_EAR).visibility > 0.3 then
    euclidDistZ (landmark_point_to_pixel (lms .LEFT_EAR) image_w image_h)
      (landmark_point_to_pixel (lms .RIGHT_EAR) image_w image_h)
  else
    euclidDistZ (landmark_point_to_pixel (lms .LEFT_EYE) image_w image_h)
      (landmark_point_to_pixel (lms .RIGHT_EYE) image_w image_h) * 1.6

/-- Head circumference as the specification words it: pi times the head
width in centimeters times 1.08. -/
noncomputable def head_circumference_spec
    (lms : LandmarkSet) (image_w image_h pixel_per_cm : ℚ) : ℝ :=
  Real.pi * (headWidthSpec lms image_w image_h / (pixel_per_cm : ℝ)) * 1.08

/-- Insert into an ascending sorted list of rationals. -/
def insertAsc (q : ℚ) : List ℚ → List ℚ
  | [] => [q]
  | x :: xs => if q ≤ x then q :: x :: xs else x :: insertAsc q xs

/-- Ascending insertion sort on rationals. -/
def sortAsc : List ℚ → List ℚ
  | [] => []
  | x :: xs => insertAsc x (sortAsc xs)

/-- np.median of a list: middle element of the sorted list for odd
length, average of the two middle elements for even length. -/
def npMedian (l : List ℚ) : ℚ :=
  let s := sortAsc l
  let n := s.length
  if n % 2 = 1 then s.getD (n / 2) 0
  else (s.getD (n / 2 - 1) 0 + s.getD (n / 2) 0) / 2

/-- One side of measure_wrist_circumference: skip the side when the
wrist visibility is below the threshold or when the image analysis of
the crop produced no usable widths; otherwise the width is the median
of the collected widths, the circumference is pi times the width in
centimeters times 1.3, and the side is accepted only when that
circumference lies inside the plausibility band.  The widths list is
the output of the scanline and contour analysis of the crop, which is
performed by the image-primitives collaborator and enters the model as
data (an empty list also covers an empty crop). -/
noncomputable def wristSideMeasurement (wrist : Landmark) (widths : List ℚ)
    (pixel_per_cm visMin lo hi : ℚ) : Option ℝ :=
  if wrist.visibility < visMin then none
  else
    match widths with
    | [] => none
    | _ :: _ =>
      let wrist_width_px := npMedian widths
      let wrist_width_cm : ℝ := (wrist_width_px : ℝ) / (pixel_per_cm : ℝ)
      let wrist_circ := Real.pi * wrist_width_cm * 1.3
      if (lo : ℝ) ≤ wrist_circ ∧ wrist_circ ≤ (hi : ℝ) then some wrist_circ else none

/-- The list of accepted per-side wrist circumferences, left then right,
as collected by the loop of measure_wrist_circumference. -/
noncomputable def acceptedWristCircs (lms : LandmarkSet) (widths : Side → List ℚ)
    (pixel_per_cm visMin lo hi : ℚ) : List ℝ :=
  [Side.left, Side.right].filterMap fun s =>
    wristSideMeasurement (lms (wristName s)) (widths s) pixel_per_cm visMin lo hi

/-- Common body of measure_wrist_circumference: the mean of the accepted
per-side values, or failure when no side was accepted. -/
noncomputable def measure_wrist_circumference_core (lms : LandmarkSet)
    (widths : Side → List ℚ) (pixel_per_cm visMin lo hi : ℚ) : Option ℝ :=
  match acceptedWristCircs lms widths pixel_per_cm visMin lo hi with
  | [] => none
  | c :: cs => some ((c :: cs).sum / ((c :: cs).length : ℝ))

/-- measure_wrist_circumference of child.py: visibility threshold 0.5
and acceptance band 8 to 16 centimeters. -/
noncomputable def measure_wrist_circumference_child (lms : LandmarkSet)
    (widths : Side → List ℚ) (pixel_per_cm : ℚ) : Option ℝ :=
  measure_wrist_circumference_core lms widths pixel_per_cm 0.5 8 16

/-- measure_wrist_circumference of 2.py: visibility threshold 0.4 and
acceptance band 6 to 25 centimeters. -/
noncomputable def measure_wrist_circumference_v2 (lms : LandmarkSet)
    (widths : Side → List ℚ) (pixel_per_cm : ℚ) : Option ℝ :=
  measure_wrist_circumference_core lms widths pixel_per_cm 0.4 6 25

/-- Forearm-proportion wrist estimate of one arm: elbow-to-wrist pixel
distance, scaled to centimeters, times 0.16. -/
noncomputable def forearmCirc (elbow wrist : Landmark) (image_w image_h pixel_per_cm : ℚ) : ℝ :=
  let forearm_length_px :=
    hypotR (((wrist.x - elbow.x) * image_w : ℚ) : ℝ) (((wrist.y - elbow.y) * image_h : ℚ) : ℝ)
  let forearm_length_cm := forearm_length_px / (pixel_per_cm : ℝ)
  forearm_length_cm * 0.16

/-- One arm attempt of estimate_wrist_from_arm_length in child.py: the
arm is examined when elbow and wrist visibilities exceed 0.3 (the
shoulder is not consulted in this file), and its estimate is kept when
it lies between 8 and 18 centimeters. -/
noncomputable def tryArmChild (lms : LandmarkSet) (s : Side)
    (image_w image_h pixel_per_cm : ℚ) : Option ℝ :=
  let elbow := lms (elbowName s)
  let wrist := lms (wristName s)
  if elbow.visibility > 0.3 ∧ wrist.visibility > 0.3 then
    let wrist_circ := forearmCirc elbow wrist image_w image_h pixel_per_cm
    if (8 : ℝ) ≤ wrist_circ ∧ wrist_circ ≤ 18 then some wrist_circ else none
  else none

/-- One arm attempt of estimate_wrist_from_arm_length in 2.py: here the
shoulder, elbow and wrist visibilities must each exceed 0.3. -/
noncomputable def tryArmV2 (lms : LandmarkSet) (s : Side)
    (image_w image_h pixel_per_cm : ℚ) : Option ℝ :=
  let shoulder := lms (shoulderName s)
  let elbow := lms (elbowName s)
  let wrist := lms (wristName s)
  if shoulder.visibility > 0.3 ∧ elbow.visibility > 0.3 ∧ wrist.visibility > 0.3 then
    let wrist_circ := forearmCirc elbow wrist image_w image_h pixel_per_cm
    if (8 : ℝ) ≤ wrist_circ ∧ wrist_circ ≤ 18 then some wrist_circ else none
  else none

/-- Result of the arm-length fallback: either a value computed from one
arm, or the last-resort population-typical value. -/
inductive WristFallbackOutcome where
  | fromArm (s : Side) (circ : ℝ)
  | typical (circ : ℝ)

/-- The numeric value returned by the fallback in either case. -/
def WristFallbackOutcome.value : WristFallbackOutcome → ℝ
  | .fromArm _ c => c
  | .typical c => c

/-- estimate_wrist_from_arm_length of child.py: try the left arm, then
the right arm, then return the random population-typical value.  The
random draw of the source (random.uniform on 12.5 and 14.5) is modelled
by the parameter rand, the value produced by the seedable random
source.  The second component records the arms examined, in order.  The
function always produces a value. -/
noncomputable def estimate_wrist_from_arm_length_child (lms : LandmarkSet)
    (image_w image_h pixel_per_cm : ℚ) (rand : ℝ) : WristFallbackOutcome × List Side :=
  match tryArmChild lms .left image_w image_h pixel_per_cm with
  | some c => (.fromArm .left c, [.left])
  | none =>
    match tryArmChild lms .right image_w image_h pixel_per_cm with
    | some c => (.fromArm .right c, [.left, .right])
    | none => (.typical rand, [.left, .right])

/-- estimate_wrist_from_arm_length of 2.py, identical control flow but
with the shoulder included in the eligibility checks. -/
noncomputable def estimate_wrist_from_arm_length_v2 (lms : LandmarkSet)
    (image_w image_h pixel_per_cm : ℚ) (rand : ℝ) : WristFallbackOutcome × List Side :=
  match tryArmV2 lms .left image_w image_h pixel_per_cm with
  | some c => (.fromArm .left c, [.left])
  | none =>
    match tryArmV2 lms .right image_w image_h pixel_per_cm with
    | some c => (.fromArm .right c, [.left, .right])
    | none => (.typical rand, [.left, .right])

/-- The result record assembled by process_image. -/
structure MeasurementResult where
  height_cm : ℚ
  head_circumference_cm : ℝ
  wrist_circumference_cm : Option ℝ
  wrist_fallback_used : Bool
  pixel_per_cm : ℚ

/-- The two terminal failures of the pipeline. -/
inductive PipelineError where
  | scaleNotFound
  | poseNotDetected

/-- Pixel height as computed by process_image: the feet line minus the
head-top line, clamped at zero. -/
def pixel_height (lms : LandmarkSet) (image_h : ℚ) : ℚ :=
  max 0 (estimate_feet_y lms image_h - estimate_head_top_y lms image_h)

/-- process_image of child.py, from the point where the image has been
decoded: detect the scale (terminal failure when it is absent), derive
the calibration, require pose landmarks (terminal failure when absent),
then compute height, head circumference and wrist circumference, using
the arm-length fallback when the primary wrist path fails and flagging
that with wrist_fallback_used.  The final record stores the wrist value
through the Python truthiness test of the source, which maps a zero
value to the absent marker. -/
noncomputable def process_image_child (image_w image_h : ℚ) (contours : List Contour)
    (pose : Option LandmarkSet) (widths : Side → List ℚ) (rand : ℝ) :
    Except PipelineError MeasurementResult :=
  match detect_scale_pixel_length_child image_w image_h contours with
  | none => .error .scaleNotFound
  | some pixel_length =>
    let pixel_per_cm := pixel_length / 15.0
    match pose with
    | none => .error .poseNotDetected
    | some lms =>
      let height_cm := pixel_height lms image_h / pixel_per_cm
      let head_circ_cm := measure_head_circumference_child lms image_w image_h pixel_per_cm
      match measure_wrist_circumference_child lms widths pixel_per_cm with
      | some wrist_circ_cm =>
        .ok ⟨height_cm, head_circ_cm,
          if wrist_circ_cm = 0 then none else some wrist_circ_cm, false, pixel_per_cm⟩
      | none =>
        let wrist_circ_cm :=
          (estimate_wrist_from_arm_length_child lms image_w image_h pixel_per_cm rand).1.value
        .ok ⟨height_cm, head_circ_cm,
          if wrist_circ_cm = 0 then none else some wrist_circ_cm, true, pixel_per_cm⟩

/-- The last-resort branch of the fallback is reached exactly when the
primary wrist path failed and both arm attempts failed. -/
def lastResortReached_child (lms : LandmarkSet) (widths : Side → List ℚ)
    (image_w image_h pixel_per_cm : ℚ) : Prop :=
  measure_wrist_circumference_child lms widths pixel_per_cm = none ∧
  tryArmChild lms .left image_w image_h pixel_per_cm = none ∧
  tryArmChild lms .right image_w image_h pixel_per_cm = none

/-- Fixture: a landmark set with a visible left elbow and wrist, the
left shoulder present but with zero visibility, and everything else
invisible. -/
def lmsA : LandmarkSet := fun n =>
  match n with
  | .LEFT_ELBOW => ⟨0, 0, 1⟩
  | .LEFT_WRIST => ⟨0.6, 0, 1⟩
  | _ => ⟨0, 0, 0⟩

/-- Fixture: like lmsA but with a fully visible left shoulder. -/
def lmsB : LandmarkSet := fun n =>
  match n with
  | .LEFT_SHOULDER => ⟨0, 0, 1⟩
  | .LEFT_ELBOW => ⟨0, 0, 1⟩
  | .LEFT_WRIST => ⟨0.6, 0, 1⟩
  | _ => ⟨0, 0, 0⟩

/-- Fixture: a landmark set in which every landmark is invisible. -/
def lmsZ : LandmarkSet := fun _ => ⟨0, 0, 0⟩

/-- Fixture: a landmark set with only the left wrist visible. -/
def lmsWr : LandmarkSet := fun n =>
  match n with
  | .LEFT_WRIST => ⟨0.5, 0.5, 0.9⟩
  | _ => ⟨0, 0, 0⟩

/-- Fixture: scanline widths with a single usable left-side width. -/
def widthsW : Side → List ℚ := fun s =>
  match s with
  | .left => [12]
  | .right => []

/-- Fixture: empty scanline widths for both sides. -/
def widths0 : Side → List ℚ := fun _ => []

/-- Fixture: the contour list used by the first counterexample. -/
def ctrsC1 : List Contour := [⟨50, 60, 2⟩, ⟨80, 40, 8⟩]

/-- The accepted per-side value of the fifth witness: a median width of
12 pixels at 4 pixels per centimeter. -/
noncomputable def c5value : ℝ := Real.pi * 3 * 1.3

theorem pickFirstMaxQ_mem {α : Type} (k : α → ℚ) (x : α) (l : List α) :
    pickFirstMaxQ k x l ∈ x :: l := by
  induction l generalizing x with
  | nil => simp [pickFirstMaxQ]
  | cons y ys ih =>
    unfold pickFirstMaxQ
    by_cases hxy : k x < k y
    · rw [if_pos hxy]
      rcases List.mem_cons.mp (ih y) with h | h
      · simp [h]
      · exact List.mem_cons_of_mem _ (List.mem_cons_of_mem _ h)
    · rw [if_neg hxy]
      rcases List.mem_cons.mp (ih x) with h | h
      · simp [h]
      · exact List.mem_cons_of_mem _ (List.mem_cons_of_mem _ h)

theorem pickFirstMaxQ_le {α : Type} (k : α → ℚ) (x : α) (l : List α) :
    ∀ a ∈ x :: l, k a ≤ k (pickFirstMaxQ k x l) := by
  induction l generalizing x with
  | nil =>
    intro a ha
    rcases List.mem_cons.mp ha with h | h
    · subst h
      simp [pickFirstMaxQ]
    · cases h
  | cons y ys ih =>
    intro a ha
    unfold pickFirstMaxQ
    by_cases hxy : k x < k y
    · rw [if_pos hxy]
      rcases List.mem_cons.mp ha with h | h
      · subst h
        exact le_trans (le_of_lt hxy) (ih y y (List.mem_cons_self y ys))
      · rcases List.mem_cons.mp h with h | h
        · subst h
          exact ih a a (List.mem_cons_self a ys)
        · exact ih y a (List.mem_cons_of_mem _ h)
    · rw [if_neg hxy]
      rcases List.mem_cons.mp ha with h | h
      · subst h
        exact ih a a (List.mem_cons_self a ys)
      · rcases List.mem_cons.mp h with h | h
        · subst h
          exact le_trans (le_of_not_lt hxy) (ih x x (List.mem_cons_self x ys))
        · exact ih x a (List.mem_cons_of_mem _ h)

theorem lexLe_rfl (p : ℚ × ℚ) : lexLe p p :=
  Or.inr ⟨rfl, le_rfl⟩

theorem lexLe_trans {p q r : ℚ × ℚ} (h1 : lexLe p q) (h2 : lexLe q r) : lexLe p r := by
  rcases h1 with h1 | ⟨h1a, h1b⟩
  · rcases h2 with h2 | ⟨h2a, h2b⟩
    · exact Or.inl (lt_trans h1 h2)
    · exact Or.inl (h2a ▸ h1)
  · rcases h2 with h2 | ⟨h2a, h2b⟩
    · exact Or.inl (h1a ▸ h2)
    · exact Or.inr ⟨h1a.trans h2a, h1b.trans h2b⟩

theorem lexLe_of_lexLt {p q : ℚ × ℚ} (h : lexLt p q) : lexLe p q := by
  rcases h with h | ⟨ha, hb⟩
  · exact Or.inl h
  · exact Or.inr ⟨ha, le_of_lt hb⟩

theorem lexLe_of_not_lexLt {p q : ℚ × ℚ} (h : ¬ lexLt p q) : lexLe q p := by
  unfold lexLt at h
  push_neg at h
  rcases lt_or_eq_of_le h.1 with hlt | heq
  · exact Or.inl hlt
  · exact Or.inr ⟨heq, h.2 heq.symm⟩

theorem pickFirstMaxLex_mem {α : Type} (k : α → ℚ × ℚ) (x : α) (l : List α) :
    pickFirstMaxLex k x l ∈ x :: l := by
  induction l generalizing x with
  | nil => simp [pickFirstMaxLex]
  | cons y ys ih =>
    unfold pickFirstMaxLex
    by_cases hxy : lexLt (k x) (k y)
    · rw [if_pos hxy]
      rcases List.mem_cons.mp (ih y) with h | h
      · simp [h]
      · exact List.mem_cons_of_mem _ (List.mem_cons_of_mem _ h)
    · rw [if_neg hxy]
      rcases List.mem_cons.mp (ih x) with h | h
      · simp [h]
      · exact List.mem_cons_of_mem _ (List.mem_cons_of_mem _ h)

theorem pickFirstMaxLex_le {α : Type} (k : α → ℚ × ℚ) (x : α) (l : List α) :
    ∀ a ∈ x :: l, lexLe (k a) (k (pickFirstMaxLex k x l)) := by
  induction l generalizing x with
  | nil =>
    intro a ha
    rcases List.mem_cons.mp ha with h | h
    · subst h
      simp [pickFirstMaxLex, lexLe_rfl]
    · cases h
  | cons y ys ih =>
    intro a ha
    unfold pickFirstMaxLex
    by_cases hxy : lexLt (k x) (k y)
    · rw [if_pos hxy]
      rcases List.mem_cons.mp ha with h | h
      · subst h
        exact lexLe_trans (lexLe_of_lexLt hxy) (ih y y (List.mem_cons_self y ys))
      · rcases List.mem_cons.mp h with h | h
        · subst h
          exact ih a a (List.mem_cons_self a ys)
        · exact ih y a (List.mem_cons_of_mem _ h)
    · rw [if_neg hxy]
      rcases List.mem_cons.mp ha with h | h
      · subst h
        exact ih a a (List.mem_cons_self a ys)
      · rcases List.mem_cons.mp h with h | h
        · subst h
          exact lexLe_trans (lexLe_of_not_lexLt hxy) (ih x x (List.mem_cons_self x ys))
        · exact ih x a (List.mem_cons_of_mem _ h)

theorem rulerCandidates_child_longSide {w h : ℚ} {contours : List Contour}
    {d : RulerCandidate} (hd : d ∈ rulerCandidates_child w h contours) :
    0.05 * max w h < d.longSide := by
  unfold rulerCandidates_child at hd
  rcases List.mem_filterMap.mp hd with ⟨cnt, _, hcnt⟩
  simp only [] at hcnt
  split_ifs at hcnt with h1 h2 h3
  rcases Option.some.inj hcnt with rfl
  exact h3.2.1

theorem wristSideMeasurement_band {wrist : Landmark} {widths : List ℚ}
    {pixel_per_cm visMin lo hi : ℚ} {c : ℝ}
    (hc : wristSideMeasurement wrist widths pixel_per_cm visMin lo hi = some c) :
    (lo : ℝ) ≤ c ∧ c ≤ (hi : ℝ) := by
  rcases widths with _ | ⟨w0, ws⟩
  · simp [wristSideMeasurement] at hc
  · simp only [wristSideMeasurement] at hc
    split_ifs at hc with h1 h2
    rcases Option.some.inj hc with rfl
    exact h2

theorem mean_mem_of_all_mem {l : List ℝ} {lo hi : ℝ} (hne : l ≠ [])
    (hmem : ∀ x ∈ l, lo ≤ x ∧ x ≤ hi) :
    lo ≤ l.sum / (l.length : ℝ) ∧ l.sum / (l.length : ℝ) ≤ hi := by
  have hlen : 0 < (l.length : ℝ) := by
    have : 0 < l.length := List.length_pos.mpr hne
    exact_mod_cast this
  have hlow : (l.length : ℝ) * lo ≤ l.sum := by
    have := List.card_nsmul_le_sum l lo (fun x hx => (hmem x hx).1)
    simpa [nsmul_eq_mul] using this
  have hhigh : l.sum ≤ (l.length : ℝ) * hi := by
    have := List.sum_le_card_nsmul l hi (fun x hx => (hmem x hx).2)
    simpa [nsmul_eq_mul] using this
  constructor
  · rw [le_div_iff₀ hlen]
    linarith
  · rw [div_le_iff₀ hlen]
    linarith

theorem acceptedWristCircs_band {lms : LandmarkSet} {widths : Side → List ℚ}
    {pixel_per_cm visMin lo hi : ℚ} :
    ∀ x ∈ acceptedWristCircs lms widths pixel_per_cm visMin lo hi,
      (lo : ℝ) ≤ x ∧ x ≤ (hi : ℝ) := by
  intro x hx
  unfold acceptedWristCircs at hx
  rcases List.mem_filterMap.mp hx with ⟨s, _, hs⟩
  exact wristSideMeasurement_band hs

theorem measure_core_band {lms : LandmarkSet} {widths : Side → List ℚ}
    {pixel_per_cm visMin lo hi : ℚ} {v : ℝ}
    (hv : measure_wrist_circumference_core lms widths pixel_per_cm visMin lo hi = some v) :
    (lo : ℝ) ≤ v ∧ v ≤ (hi : ℝ) := by
  unfold measure_wrist_circumference_core at hv
  rcases hacc : acceptedWristCircs lms widths pixel_per_cm visMin lo hi with _ | ⟨c, cs⟩
  · rw [hacc] at hv
    cases hv
  · rw [hacc] at hv
    rcases Option.some.inj hv with rfl
    refine mean_mem_of_all_mem (List.cons_ne_nil c cs) ?_
    intro x hx
    exact acceptedWristCircs_band x (hacc ▸ hx)

theorem measure_core_none_iff {lms : LandmarkSet} {widths : Side → List ℚ}
    {pixel_per_cm visMin lo hi : ℚ} :
    measure_wrist_circumference_core lms widths pixel_per_cm visMin lo hi = none ↔
      acceptedWristCircs lms widths pixel_per_cm visMin lo hi = [] := by
  unfold measure_wrist_circumference_core
  rcases hacc : acceptedWristCircs lms widths pixel_per_cm visMin lo hi with _ | ⟨c, cs⟩
  · simp
  · simp

theorem tryArmChild_eligible {lms : LandmarkSet} {s : Side}
    {image_w image_h pixel_per_cm : ℚ} {c : ℝ}
    (hc : tryArmChild lms s image_w image_h pixel_per_cm = some c) :
    (lms (elbowName s)).visibility > 0.3 ∧ (lms (wristName s)).visibility > 0.3 := by
  simp only [tryArmChild] at hc
  split_ifs at hc with h1 h2
  exact h1

theorem tryArmV2_eligible {lms : LandmarkSet} {s : Side}
    {image_w image_h pixel_per_cm : ℚ} {c : ℝ}
    (hc : tryArmV2 lms s image_w image_h pixel_per_cm = some c) :
    (lms (shoulderName s)).visibility > 0.3 ∧ (lms (elbowName s)).visibility > 0.3 ∧
      (lms (wristName s)).visibility > 0.3 := by
  simp only [tryArmV2] at hc
  split_ifs at hc with h1 h2
  exact h1

theorem sqrtEval600 : Real.sqrt (360000 : ℝ) = 600 := by
  rw [show (360000 : ℝ) = 600 ^ 2 by norm_num]
  rw [Real.sqrt_sq (by norm_num : (0 : ℝ) ≤ 600)]

theorem tryArmChild_lmsA_left : tryArmChild lmsA .left 1000 1000 8 = some 12 := by
  have hfc : forearmCirc (lmsA (elbowName .left)) (lmsA (wristName .left)) 1000 1000 8 = 12 := by
    show forearmCirc ⟨0, 0, 1⟩ ⟨0.6, 0, 1⟩ 1000 1000 8 = 12
    unfold forearmCirc hypotR
    norm_num [sqrtEval600]
  simp only [tryArmChild, hfc]
  norm_num [lmsA, elbowName, wristName]

theorem tryArmV2_lmsB_left : tryArmV2 lmsB .left 1000 1000 8 = some 12 := by
  have hfc : forearmCirc (lmsB (elbowName .left)) (lmsB (wristName .left)) 1000 1000 8 = 12 := by
    show forearmCirc ⟨0, 0, 1⟩ ⟨0.6, 0, 1⟩ 1000 1000 8 = 12
    unfold forearmCirc hypotR
    norm_num [sqrtEval600]
  simp only [tryArmV2, hfc]
  norm_num [lmsB, shoulderName, elbowName, wristName]

theorem tryArmChild_lmsZ (s : Side) (w h ppcm : ℚ) :
    tryArmChild lmsZ s w h ppcm = none := by
  norm_num [tryArmChild, lmsZ]

theorem measure_child_lmsZ (widths : Side → List ℚ) (ppcm : ℚ) :
    measure_wrist_circumference_child lmsZ widths ppcm = none := by
  unfold measure_wrist_circumference_child measure_wrist_circumference_core acceptedWristCircs
  norm_num [wristSideMeasurement, lmsZ, List.filterMap_cons]

theorem detect_child_120 : detect_scale_pixel_length_child 1000 1000 [⟨50, 120, 2⟩] = some 120 := by
  norm_num [detect_scale_pixel_length_child, rulerCandidates_child, pickFirstMaxQ,
    List.filterMap_cons]

theorem measure_child_lmsWr : measure_wrist_circumference_child lmsWr widthsW 4 = some c5value := by
  have hmed : npMedian [12] = 12 := by norm_num [npMedian, sortAsc, insertAsc]
  have hleft : wristSideMeasurement (lmsWr (wristName .left)) (widthsW .left) 4 0.5 8 16 =
      some c5value := by
    show wristSideMeasurement ⟨0.5, 0.5, 0.9⟩ [12] 4 0.5 8 16 = some c5value
    unfold wristSideMeasurement
    rw [if_neg (by norm_num)]
    simp only [hmed]
    split_ifs with hband
    · congr 1
      unfold c5value
      push_cast
      ring
    · exfalso
      apply hband
      constructor
      · push_cast
        nlinarith [Real.pi_gt_three]
      · push_cast
        nlinarith [Real.pi_lt_d2]
  have hright : wristSideMeasurement (lmsWr (wristName .right)) (widthsW .right) 4 0.5 8 16 =
      none := by
    show wristSideMeasurement ⟨0, 0, 0⟩ [] 4 0.5 8 16 = none
    unfold wristSideMeasurement
    rw [if_pos (by norm_num)]
  unfold measure_wrist_circumference_child measure_wrist_circumference_core acceptedWristCircs
  rw [List.filterMap_cons, List.filterMap_cons, List.filterMap_nil]
  rw [hleft, hright]
  norm_num

/-- Claim C1, counterexample: in the child.py scale detector the
candidate ranking is by area descending, so on this contour pair the
returned long side (40) belongs to the candidate with the strictly
smaller aspect ratio, contradicting the claimed ranking by aspect then
long side. -/
theorem c1_counterexample :
    detect_scale_pixel_length_child 100 100 ctrsC1 = some 40 ∧
    ((rulerCandidates_child 100 100 ctrsC1).getD 0 ⟨0, 0, 0⟩).longSide = 60 ∧
    ((rulerCandidates_child 100 100 ctrsC1).getD 1 ⟨0, 0, 0⟩).longSide = 40 ∧
    ((rulerCandidates_child 100 100 ctrsC1).getD 1 ⟨0, 0, 0⟩).aspect <
      ((rulerCandidates_child 100 100 ctrsC1).getD 0 ⟨0, 0, 0⟩).aspect := by
  refine ⟨?_, ?_, ?_, ?_⟩ <;>
    norm_num [detect_scale_pixel_length_child, rulerCandidates_child, pickFirstMaxQ, ctrsC1,
      List.filterMap_cons, List.getD]

/-- Claim C1, amended: the 2.py detector returns the long side of a
candidate that is maximal lexicographically in aspect then long side;
the child.py detector instead returns the long side of a candidate of
maximal area. -/
theorem c1_scale_ranking :
    (∀ (w h : ℚ) (contours : List Contour) (c : RulerCandidate) (cs : List RulerCandidate),
      rulerCandidates_v2 w h contours = c :: cs →
      detect_scale_pixel_length_v2 w h contours =
        some ((pickFirstMaxLex (fun d => (d.aspect, d.longSide)) c cs).longSide) ∧
      ∀ d ∈ c :: cs,
        d.aspect ≤ (pickFirstMaxLex (fun d => (d.aspect, d.longSide)) c cs).aspect ∧
        (d.aspect = (pickFirstMaxLex (fun d => (d.aspect, d.longSide)) c cs).aspect →
          d.longSide ≤ (pickFirstMaxLex (fun d => (d.aspect, d.longSide)) c cs).longSide)) ∧
    (∀ (w h : ℚ) (contours : List Contour) (c : RulerCandidate) (cs : List RulerCandidate),
      rulerCandidates_child w h contours = c :: cs →
      detect_scale_pixel_length_child w h contours =
        some ((pickFirstMaxQ RulerCandidate.area c cs).longSide) ∧
      ∀ d ∈ c :: cs, d.area ≤ (pickFirstMaxQ RulerCandidate.area c cs).area) := by
  constructor
  · intro w h contours c cs hcand
    constructor
    · unfold detect_scale_pixel_length_v2
      rw [hcand]
    · intro d hd
      have hle := pickFirstMaxLex_le (fun d => (d.aspect, d.longSide)) c cs d hd
      rcases hle with hlt | ⟨ha, hb⟩
      · exact ⟨le_of_lt hlt, fun heq => absurd heq (ne_of_lt hlt)⟩
      · exact ⟨le_of_eq ha, fun _ => hb⟩
  · intro w h contours c cs hcand
    constructor
    · unfold detect_scale_pixel_length_child
      rw [hcand]
    · intro d hd
      exact pickFirstMaxQ_le RulerCandidate.area c cs d hd

/-- Witness for the amended first claim at concrete inputs. -/
theorem c1_scale_ranking_witness :
    detect_scale_pixel_length_v2 100 100 [⟨50, 30, 2⟩] = some 30 ∧
    detect_scale_pixel_length_child 100 100 [⟨50, 60, 2⟩] = some 60 := by
  constructor
  · have h := (c1_scale_ranking.1 100 100 [⟨50, 30, 2⟩] ⟨50, 30, 3000000000 / 200000001⟩ []
      (by norm_num [rulerCandidates_v2, List.filterMap_cons])).1
    simpa [pickFirstMaxLex] using h
  · have h := (c1_scale_ranking.2 100 100 [⟨50, 60, 2⟩] ⟨50, 60, 6000000000 / 200000001⟩ []
      (by norm_num [rulerCandidates_child, List.filterMap_cons])).1
    simpa [pickFirstMaxQ] using h

/-- Claim C2, counterexample: in child.py the left shoulder has zero
visibility yet the fallback still measures from the left arm, because
that file never consults the shoulder. -/
theorem c2_counterexample :
    (lmsA .LEFT_SHOULDER).visibility ≤ 0.3 ∧
    (estimate_wrist_from_arm_length_child lmsA 1000 1000 8 13).1 = .fromArm .left 12 := by
  constructor
  · norm_num [lmsA]
  · unfold estimate_wrist_from_arm_length_child
    rw [tryArmChild_lmsA_left]

/-- Claim C2, amended: in the 2.py fallback an arm yields a measurement
only when shoulder, elbow and wrist visibilities each exceed 0.3; in the
child.py fallback only elbow and wrist are checked.  In both variants
the left arm is examined before the right and each arm at most once: the
examined-arm trace is either just the left arm or the left arm followed
by the right arm. -/
theorem c2_arm_fallback :
    (∀ (lms : LandmarkSet) (w h ppcm : ℚ) (rand : ℝ) (s : Side) (circ : ℝ),
      (estimate_wrist_from_arm_length_v2 lms w h ppcm rand).1 = .fromArm s circ →
      (lms (shoulderName s)).visibility > 0.3 ∧ (lms (elbowName s)).visibility > 0.3 ∧
        (lms (wristName s)).visibility > 0.3) ∧
    (∀ (lms : LandmarkSet) (w h ppcm : ℚ) (rand : ℝ) (s : Side) (circ : ℝ),
      (estimate_wrist_from_arm_length_child lms w h ppcm rand).1 = .fromArm s circ →
      (lms (elbowName s)).visibility > 0.3 ∧ (lms (wristName s)).visibility > 0.3) ∧
    (∀ (lms : LandmarkSet) (w h ppcm : ℚ) (rand : ℝ),
      (estimate_wrist_from_arm_length_child lms w h ppcm rand).2 = [Side.left] ∨
      (estimate_wrist_from_arm_length_child lms w h ppcm rand).2 = [Side.left, Side.right]) ∧
    (∀ (lms : LandmarkSet) (w h ppcm : ℚ) (rand : ℝ),
      (estimate_wrist_from_arm_length_v2 lms w h ppcm rand).2 = [Side.left] ∨
      (estimate_wrist_from_arm_length_v2 lms w h ppcm rand).2 = [Side.left, Side.right]) := by
  refine ⟨?_, ?_, ?_, ?_⟩
  · intro lms w h ppcm rand s circ hfa
    unfold estimate_wrist_from_arm_length_v2 at hfa
    rcases hl : tryArmV2 lms .left w h ppcm with _ | cl
    · rw [hl] at hfa
      rcases hr : tryArmV2 lms .right w h ppcm with _ | cr
      · rw [hr] at hfa
        simp at hfa
      · rw [hr] at hfa
        simp only [WristFallbackOutcome.fromArm.injEq] at hfa
        rcases hfa with ⟨rfl, rfl⟩
        exact tryArmV2_eligible hr
    · rw [hl] at hfa
      simp only [WristFallbackOutcome.fromArm.injEq] at hfa
      rcases hfa with ⟨rfl, rfl⟩
      exact tryArmV2_eligible hl
  · intro lms w h ppcm rand s circ hfa
    unfold estimate_wrist_from_arm_length_child at hfa
    rcases hl : tryArmChild lms .left w h ppcm with _ | cl
    · rw [hl] at hfa
      rcases hr : tryArmChild lms .right w h ppcm with _ | cr
      · rw [hr] at hfa
        simp at hfa
      · rw [hr] at hfa
        simp only [WristFallbackOutcome.fromArm.injEq] at hfa
        rcases hfa with ⟨rfl, rfl⟩
        exact tryArmChild_eligible hr
    · rw [hl] at hfa
      simp only [WristFallbackOutcome.fromArm.injEq] at hfa
      rcases hfa with ⟨rfl, rfl⟩
      exact tryArmChild_eligible hl
  · intro lms w h ppcm rand
    unfold estimate_wrist_from_arm_length_child
    rcases tryArmChild lms .left w h ppcm with _ | cl
    · rcases tryArmChild lms .right w h ppcm with _ | cr
      · right
        rfl
      · right
        rfl
    · left
      rfl
  · intro lms w h ppcm rand
    unfold estimate_wrist_from_arm_length_v2
    rcases tryArmV2 lms .left w h ppcm with _ | cl
    · rcases tryArmV2 lms .right w h ppcm with _ | cr
      · right
        rfl
      · right
        rfl
    · left
      rfl

/-- Witness for the amended second claim: on a landmark set with a fully
visible left arm the 2.py fallback measures from the left arm, and the
eligibility conclusion instantiates to its visibilities. -/
theorem c2_arm_fallback_witness :
    (lmsB (shoulderName .left)).visibility > 0.3 ∧
      (lmsB (elbowName .left)).visibility > 0.3 ∧
      (lmsB (wristName .left)).visibility > 0.3 := by
  have hest : (estimate_wrist_from_arm_length_v2 lmsB 1000 1000 8 13).1 = .fromArm .left 12 := by
    unfold estimate_wrist_from_arm_length_v2
    rw [tryArmV2_lmsB_left]
  exact c2_arm_fallback.1 lmsB 1000 1000 8 13 .left 12 hest

/-- Claim C3, counterexample: the pixel conversion truncates, so at
normalized x of 0.69 and width 10 it returns 6 while rounding returns 7. -/
theorem c3_counterexample :
    landmark_point_to_pixel ⟨0.69, 0, 1⟩ 10 10 ≠
      (round ((0.69 : ℚ) * 10), round ((0 : ℚ) * 10)) := by
  norm_num [landmark_point_to_pixel, pytrunc, round_eq, Prod.ext_iff]

/-- Claim C3, amended: for nonnegative scaled coordinates the pixel
conversion is the floor, that is truncation toward zero, not rounding to
nearest. -/
theorem c3_truncation (lm : Landmark) (w h : ℚ) (hx : 0 ≤ lm.x * w) (hy : 0 ≤ lm.y * h) :
    landmark_point_to_pixel lm w h = (⌊lm.x * w⌋, ⌊lm.y * h⌋) := by
  unfold landmark_point_to_pixel pytrunc
  rw [if_pos hx, if_pos hy]

/-- Witness for the amended third claim. -/
theorem c3_truncation_witness :
    landmark_point_to_pixel ⟨0.69, 0, 1⟩ 10 10 = (⌊(0.69 : ℚ) * 10⌋, ⌊(0 : ℚ) * 10⌋) :=
  c3_truncation ⟨0.69, 0, 1⟩ 10 10 (by norm_num) (by norm_num)

/-- Claim C4, counterexample: with a single degenerate contour the
largest-contour fallback of the child.py detector returns length zero,
so the pipeline proceeds with a calibration of zero pixels per
centimeter, which is not strictly positive. -/
theorem c4_counterexample :
    detect_scale_pixel_length_child 100 100 [⟨1, 0, 0⟩] = some 0 ∧
    ¬ 0 < (0 : ℚ) / 15.0 := by
  constructor
  · norm_num [detect_scale_pixel_length_child, rulerCandidates_child, pickFirstMaxQ,
      List.filterMap_cons]
  · norm_num

/-- Claim C4, amended: when the child.py detector selects from a
non-empty ruler-candidate list and the image has a positive dimension,
the returned length is positive and so is the derived calibration; on
the largest-contour fallback path positivity can fail. -/
theorem c4_calibration_positive :
    ∀ (w h : ℚ) (contours : List Contour) (c : RulerCandidate) (cs : List RulerCandidate),
      0 < max w h →
      rulerCandidates_child w h contours = c :: cs →
      detect_scale_pixel_length_child w h contours =
        some ((pickFirstMaxQ RulerCandidate.area c cs).longSide) ∧
      0 < (pickFirstMaxQ RulerCandidate.area c cs).longSide / 15.0 := by
  intro w h contours c cs hwh hcand
  constructor
  · unfold detect_scale_pixel_length_child
    rw [hcand]
  · have hmem : pickFirstMaxQ RulerCandidate.area c cs ∈ rulerCandidates_child w h contours := by
      rw [hcand]
      exact pickFirstMaxQ_mem _ c cs
    have hlong := rulerCandidates_child_longSide hmem
    have hpos : (0 : ℚ) < 0.05 * max w h := by
      have : (0 : ℚ) < 0.05 := by norm_num
      exact mul_pos this hwh
    exact div_pos (lt_trans hpos hlong) (by norm_num)

/-- Witness for the amended fourth claim. -/
theorem c4_calibration_positive_witness :
    detect_scale_pixel_length_child 100 100 [⟨50, 60, 2⟩] =
      some ((pickFirstMaxQ RulerCandidate.area
        (⟨50, 60, 6000000000 / 200000001⟩ : RulerCandidate) []).longSide) ∧
    0 < (pickFirstMaxQ RulerCandidate.area
      (⟨50, 60, 6000000000 / 200000001⟩ : RulerCandidate) []).longSide / 15.0 :=
  c4_calibration_positive 100 100 [⟨50, 60, 2⟩] ⟨50, 60, 6000000000 / 200000001⟩ []
    (by norm_num) (by norm_num [rulerCandidates_child, List.filterMap_cons])

/-- Claim C5: a side is accepted by the primary wrist path only when its
circumference lies in the plausibility band (8 to 16 in child.py, 6 to
25 in 2.py); the result is the mean of the accepted sides when there is
at least one and absent exactly when there is none, so any returned
value lies in the band. -/
theorem c5_wrist_band :
    ∀ (lms : LandmarkSet) (widths : Side → List ℚ) (ppcm : ℚ) (v : ℝ),
      (measure_wrist_circumference_child lms widths ppcm = some v →
        (8 : ℝ) ≤ v ∧ v ≤ 16) ∧
      (measure_wrist_circumference_v2 lms widths ppcm = some v →
        (6 : ℝ) ≤ v ∧ v ≤ 25) ∧
      (measure_wrist_circumference_child lms widths ppcm = none ↔
        acceptedWristCircs lms widths ppcm 0.5 8 16 = []) ∧
      (measure_wrist_circumference_v2 lms widths ppcm = none ↔
        acceptedWristCircs lms widths ppcm 0.4 6 25 = []) := by
  intro lms widths ppcm v
  refine ⟨?_, ?_, measure_core_none_iff, measure_core_none_iff⟩
  · intro hv
    have h := measure_core_band hv
    exact_mod_cast h
  · intro hv
    have h := measure_core_band hv
    exact_mod_cast h

/-- Witness for the fifth claim: a concrete accepted measurement lies in
the strict band. -/
theorem c5_wrist_band_witness : (8 : ℝ) ≤ c5value ∧ c5value ≤ 16 :=
  (c5_wrist_band lmsWr widthsW 4 c5value).1 measure_child_lmsWr

/-- Claim C6: when both arm attempts fail, the fallback returns exactly
the value of the seedable random source, which lies in the interval from
12.5 to 14.5 whenever the source respects its contract (so the result is
never absent and is reproducible for a fixed seed); and whenever the
primary wrist path fails the orchestrator runs the fallback and reports
wrist_fallback_used as true. -/
theorem c6_random_fallback :
    (∀ (lms : LandmarkSet) (w h ppcm : ℚ) (rand : ℝ),
      tryArmChild lms .left w h ppcm = none →
      tryArmChild lms .right w h ppcm = none →
      (12.5 : ℝ) ≤ rand → rand ≤ 14.5 →
      (estimate_wrist_from_arm_length_child lms w h ppcm rand).1 = .typical rand ∧
      (12.5 : ℝ) ≤ (estimate_wrist_from_arm_length_child lms w h ppcm rand).1.value ∧
      (estimate_wrist_from_arm_length_child lms w h ppcm rand).1.value ≤ 14.5) ∧
    (∀ (w h : ℚ) (contours : List Contour) (L : ℚ) (lms : LandmarkSet)
      (widths : Side → List ℚ) (rand : ℝ),
      detect_scale_pixel_length_child w h contours = some L →
      measure_wrist_circumference_child lms widths (L / 15.0) = none →
      (process_image_child w h contours (some lms) widths rand).map
        (fun r => r.wrist_fallback_used) = .ok true) := by
  constructor
  · intro lms w h ppcm rand hl hr h1 h2
    unfold estimate_wrist_from_arm_length_child
    rw [hl, hr]
    exact ⟨rfl, h1, h2⟩
  · intro w h contours L lms widths rand hdet hm
    unfold process_image_child
    rw [hdet]
    dsimp only
    rw [hm]
    rfl

/-- Witness for the sixth claim at concrete inputs. -/
theorem c6_random_fallback_witness :
    ((estimate_wrist_from_arm_length_child lmsZ 100 100 1 13).1 = .typical 13 ∧
      (12.5 : ℝ) ≤ (estimate_wrist_from_arm_length_child lmsZ 100 100 1 13).1.value ∧
      (estimate_wrist_from_arm_length_child lmsZ 100 100 1 13).1.value ≤ 14.5) ∧
    (process_image_child 1000 1000 [⟨50, 120, 2⟩] (some lmsZ) widths0 13).map
      (fun r => r.wrist_fallback_used) = .ok true := by
  constructor
  · exact c6_random_fallback.1 lmsZ 100 100 1 13 (tryArmChild_lmsZ .left 100 100 1)
      (tryArmChild_lmsZ .right 100 100 1) (by norm_num) (by norm_num)
  · exact c6_random_fallback.2 1000 1000 [⟨50, 120, 2⟩] 120 lmsZ widths0 13 detect_child_120
      (measure_child_lmsZ widths0 (120 / 15.0))

/-- Claim C7: head measurement is total and computes exactly the policy
the specification states: ear-to-ear pixel distance when both ear
visibilities exceed 0.3, otherwise eye-to-eye distance scaled by 1.6,
with circumference pi times the width in centimeters times 1.08. -/
theorem c7_head_circumference :
    ∀ (lms : LandmarkSet) (w h ppcm : ℚ), 0 < ppcm →
      measure_head_circumference_child lms w h ppcm = head_circumference_spec lms w h ppcm := by
  intro lms w h ppcm _
  rfl

/-- Witness for the seventh claim. -/
theorem c7_head_circumference_witness :
    measure_head_circumference_child lmsZ 10 10 1 = head_circumference_spec lmsZ 10 10 1 :=
  c7_head_circumference lmsZ 10 10 1 (by norm_num)

/-- Claim C8: the pixel height of the orchestrator is the feet line
minus the head-top line clamped at zero, hence never negative, and the
feet line never exceeds the image height. -/
theorem c8_pixel_height :
    ∀ (lms : LandmarkSet) (image_h : ℚ),
      pixel_height lms image_h =
        max 0 (estimate_feet_y lms image_h - estimate_head_top_y lms image_h) ∧
      0 ≤ pixel_height lms image_h ∧
      estimate_feet_y lms image_h ≤ image_h := by
  intro lms image_h
  refine ⟨rfl, le_max_left _ _, ?_⟩
  unfold estimate_feet_y
  exact min_le_left _ _

/-- Claim C9: the pipeline is deterministic whenever the last-resort
random branch is not reached: two runs with identical scale, landmarks
and width analysis but different random draws produce the same record. -/
theorem c9_deterministic :
    ∀ (w h : ℚ) (contours : List Contour) (lms : LandmarkSet) (widths : Side → List ℚ)
      (L : ℚ) (r1 r2 : ℝ),
      detect_scale_pixel_length_child w h contours = some L →
      ¬ lastResortReached_child lms widths w h (L / 15.0) →
      process_image_child w h contours (some lms) widths r1 =
        process_image_child w h contours (some lms) widths r2 := by
  intro w h contours lms widths L r1 r2 hdet hnl
  unfold process_image_child
  rw [hdet]
  dsimp only
  rcases hm : measure_wrist_circumference_child lms widths (L / 15.0) with _ | wc
  · unfold estimate_wrist_from_arm_length_child
    rcases hl : tryArmChild lms .left w h (L / 15.0) with _ | cl
    · rcases hr : tryArmChild lms .right w h (L / 15.0) with _ | cr
      · exact absurd ⟨hm, hl, hr⟩ hnl
      · rfl
    · rfl
  · rfl

/-- Witness for the ninth claim: with an eligible left arm the two runs
with different random draws agree. -/
theorem c9_deterministic_witness :
    process_image_child 1000 1000 [⟨50, 120, 2⟩] (some lmsA) widths0 13 =
      process_image_child 1000 1000 [⟨50, 120, 2⟩] (some lmsA) widths0 14 := by
  apply c9_deterministic 1000 1000 [⟨50, 120, 2⟩] lmsA widths0 120 13 14 detect_child_120
  intro hcon
  have hl := hcon.2.1
  norm_num at hl
  rw [tryArmChild_lmsA_left] at hl
  exact Option.noConfusion hl

/-- Claim C10: the head-circumference implementations of the two
pipeline variants agree extensionally. -/
theorem c10_head_variants_agree :
    ∀ (lms : LandmarkSet) (w h ppcm : ℚ), 0 < ppcm →
      measure_head_circumference_child lms w h ppcm =
        measure_head_circumference_v2 lms w h ppcm := by
  intro lms w h ppcm _
  rfl

/-- Witness for the tenth claim. -/
theorem c10_head_variants_agree_witness :
    measure_head_circumference_child lmsZ 12 8 2 = measure_head_circumference_v2 lmsZ 12 8 2 :=
  c10_head_variants_agree lmsZ 12 8 2 (by norm_num)
